import Mathlib

/-!
Shallow embedding of the exam-proctoring backend
(`backend/app/services/scoring.py`, `backend/app/events.py`,
`backend/app/main.py`, `backend/app/models/schemas.py`).

Modelling conventions:
* Python `datetime` instants are rationals counting seconds; a
  `timedelta` comparison `now - ts <= timedelta(minutes=10)` becomes
  `now - ts ≤ 600`.  Every internal `datetime.now()` read is made an
  explicit `now : ℚ` parameter of the embedded function.
* Python floats are rationals.
* Python dicts keyed by strings are association lists; dict insertion
  order (which is Python's iteration order) is preserved by the
  embedding where it matters.
* A raised-and-caught exception becomes an explicit branch that leaves
  the state unchanged; a FastAPI `HTTPException` becomes `Except.error`
  carrying the HTTP status code.
* WebSocket connection objects are opaque `Nat` handles; a send that
  raises is modelled by a failure oracle `fails : Nat → Bool`.
* The best-effort persistence writes (`db.store_event` /
  `db.update_session`) are wrapped in their own try/except in
  `process_event` and never alter in-memory state, so they are elided.
-/

namespace Proctoring

/-- `EventType` enum from `models/schemas.py` (21 members). -/
inductive EventType where
  | GAZE_LEFT
  | GAZE_RIGHT
  | GAZE_UP
  | GAZE_DOWN
  | HEAD_TURN_LEFT
  | HEAD_TURN_RIGHT
  | HEAD_TILT
  | MULTIPLE_FACES
  | NO_FACE
  | PHONE_DETECTED
  | SPEECH_DETECTED
  | MULTIPLE_VOICES
  | BANNED_KEYWORDS
  | TAB_SWITCH
  | WINDOW_BLUR
  | COPY_PASTE
  | RIGHT_CLICK
  | KEYBOARD_SHORTCUT
  | SCREEN_SHARE_STOPPED
  | SUSPICIOUS_MOVEMENT
  | UNKNOWN
deriving DecidableEq, Repr, Fintype

/-- The string value of each `EventType` member (a `str` Enum: the member's
value, e.g. `EventType.GAZE_LEFT = "gaze_left"`). -/
def EventType.value : EventType → String
  | .GAZE_LEFT => "gaze_left"
  | .GAZE_RIGHT => "gaze_right"
  | .GAZE_UP => "gaze_up"
  | .GAZE_DOWN => "gaze_down"
  | .HEAD_TURN_LEFT => "head_turn_left"
  | .HEAD_TURN_RIGHT => "head_turn_right"
  | .HEAD_TILT => "head_tilt"
  | .MULTIPLE_FACES => "multiple_faces"
  | .NO_FACE => "no_face"
  | .PHONE_DETECTED => "phone_detected"
  | .SPEECH_DETECTED => "speech_detected"
  | .MULTIPLE_VOICES => "multiple_voices"
  | .BANNED_KEYWORDS => "banned_keywords"
  | .TAB_SWITCH => "tab_switch"
  | .WINDOW_BLUR => "window_blur"
  | .COPY_PASTE => "copy_paste"
  | .RIGHT_CLICK => "right_click"
  | .KEYBOARD_SHORTCUT => "keyboard_shortcut"
  | .SCREEN_SHARE_STOPPED => "screen_share_stopped"
  | .SUSPICIOUS_MOVEMENT => "suspicious_movement"
  | .UNKNOWN => "unknown"

/-- All enum members, in declaration order. -/
def allEventTypes : List EventType :=
  [.GAZE_LEFT, .GAZE_RIGHT, .GAZE_UP, .GAZE_DOWN,
   .HEAD_TURN_LEFT, .HEAD_TURN_RIGHT, .HEAD_TILT,
   .MULTIPLE_FACES, .NO_FACE, .PHONE_DETECTED,
   .SPEECH_DETECTED, .MULTIPLE_VOICES, .BANNED_KEYWORDS,
   .TAB_SWITCH, .WINDOW_BLUR, .COPY_PASTE, .RIGHT_CLICK,
   .KEYBOARD_SHORTCUT, .SCREEN_SHARE_STOPPED, .SUSPICIOUS_MOVEMENT,
   .UNKNOWN]

/-- Calling the enum on a string, `EventType(s)`: value lookup.  Returns
`none` where Python raises `ValueError` (no member has value `s`). -/
def eventTypeOfString (s : String) : Option EventType :=
  allEventTypes.find? (fun t => t.value = s)

/-- `SuspiciousEvent` pydantic model.  `severity` is an unvalidated free
string; `details` is an opaque key/value map. -/
structure SuspiciousEvent where
  id : String
  session_id : String
  timestamp : ℚ
  event_type : EventType
  confidence : ℚ
  details : List (String × String)
  severity : String
deriving DecidableEq, Repr

/-- `ExamSession` pydantic model. -/
structure ExamSession where
  id : String
  student_name : String
  start_time : ℚ
  end_time : Option ℚ := none
  risk_score : ℤ
  status : String
  events : List SuspiciousEvent
deriving DecidableEq, Repr

/-! ## ScoringService (`services/scoring.py`) -/

/-- The `self.event_weights` dict built in `ScoringService.__init__`:
19 entries; `HEAD_TILT` and `UNKNOWN` have no entry. -/
def event_weights (t : EventType) : Option ℚ :=
  match t with
  | .GAZE_LEFT => some 2
  | .GAZE_RIGHT => some 2
  | .GAZE_DOWN => some 3
  | .GAZE_UP => some 1
  | .HEAD_TURN_LEFT => some 2
  | .HEAD_TURN_RIGHT => some 2
  | .MULTIPLE_FACES => some 8
  | .NO_FACE => some 5
  | .PHONE_DETECTED => some 10
  | .SPEECH_DETECTED => some 3
  | .MULTIPLE_VOICES => some 7
  | .BANNED_KEYWORDS => some 15
  | .TAB_SWITCH => some 6
  | .WINDOW_BLUR => some 4
  | .COPY_PASTE => some 8
  | .RIGHT_CLICK => some 3
  | .KEYBOARD_SHORTCUT => some 5
  | .SCREEN_SHARE_STOPPED => some 12
  | .SUSPICIOUS_MOVEMENT => some 4
  | .HEAD_TILT => none
  | .UNKNOWN => none

/-- `self.event_weights.get(event_type, 1)` — dict lookup with default 1. -/
def event_weights_get (t : EventType) : ℚ :=
  (event_weights t).getD 1

/-- `self.time_decay_minutes = 10`. -/
def time_decay_minutes : ℚ := 10

/-- The severity-multiplier dict lookup with default 1.0:
`{"LOW": 0.5, "MEDIUM": 1.0, "HIGH": 1.5, "CRITICAL": 2.0}.get(severity, 1.0)`. -/
def severity_multiplier_get (s : String) : ℚ :=
  if s = "LOW" then 1/2
  else if s = "MEDIUM" then 1
  else if s = "HIGH" then 3/2
  else if s = "CRITICAL" then 2
  else 1

/-- `max(0.3, 1 - (time_diff.total_seconds() / (self.time_decay_minutes * 60)))`. -/
def time_factor (now ts : ℚ) : ℚ :=
  max (3/10) (1 - (now - ts) / (time_decay_minutes * 60))

/-- The per-event contribution computed in the body of the scoring loop:
`base_weight * confidence_multiplier * severity_multiplier * time_factor`. -/
def event_score (now : ℚ) (e : SuspiciousEvent) : ℚ :=
  event_weights_get e.event_type * e.confidence
    * severity_multiplier_get e.severity * time_factor now e.timestamp

/-- The `recent_events` list comprehension: keep events with
`current_time - event.timestamp <= timedelta(minutes=10)`. -/
def recent_events (now : ℚ) (events : List SuspiciousEvent) : List SuspiciousEvent :=
  events.filter (fun e => now - e.timestamp ≤ time_decay_minutes * 60)

/-- Building `event_counts` (a Python dict): keys in first-occurrence
order.  Inserting an already-present key leaves the key list unchanged. -/
def insertKey (ks : List EventType) (t : EventType) : List EventType :=
  if t ∈ ks then ks else ks ++ [t]

/-- The key list of the `event_counts` dict, in insertion order. -/
def dictKeys (ts : List EventType) : List EventType :=
  ts.foldl insertKey []

/-- `_calculate_frequency_penalties`, as a function of the event-type list
(the events enter only through `event.event_type`): iterate the count dict
in key order; for each type with `count > 3` add
`base_penalty * (count - 3) * 0.5` where `base_penalty` is the same
defaulted weight lookup. -/
def freq_of_types (ts : List EventType) : ℚ :=
  (dictKeys ts).foldl
    (fun penalty t =>
      let c := ts.count t
      if 3 < c then penalty + event_weights_get t * ((c : ℚ) - 3) * (1/2)
      else penalty) 0

/-- `ScoringService._calculate_frequency_penalties(events)`. -/
def calculate_frequency_penalties (events : List SuspiciousEvent) : ℚ :=
  freq_of_types (events.map (·.event_type))

/-- Python `int()` on a rational: truncation toward zero. -/
def truncInt (q : ℚ) : ℤ :=
  q.num.tdiv q.den

/-- `ScoringService.calculate_risk_score(events)`.  The internal
`datetime.now()` read is the explicit parameter `now`. -/
def calculate_risk_score (events : List SuspiciousEvent) (now : ℚ) : ℤ :=
  if events.isEmpty then 0
  else
    let recent := recent_events now events
    let base := (recent.map (event_score now)).sum
    let total := base + calculate_frequency_penalties recent
    min (truncInt total) 100

/-- The status reclassification in `process_event` (main.py lines 210-215):
`> 15 → HIGH_RISK`, `> 8 → MODERATE_RISK`, else `LOW_RISK`. -/
def classify (score : ℤ) : String :=
  if 15 < score then "HIGH_RISK"
  else if 8 < score then "MODERATE_RISK"
  else "LOW_RISK"

/-! ## WebSocketManager (`events.py`) -/

/-- The two indexes of `WebSocketManager`: `active_connections`
(session_id → set of sockets) and `connection_sessions`
(socket → session_id), both as association lists. -/
structure WSManager where
  active_connections : List (String × List ℕ)
  connection_sessions : List (ℕ × String)
deriving DecidableEq, Repr

/-- Connection `ws` appears in an `active_connections` entry keyed by
`sid` (the forward index session → connections). -/
def WSManager.memConns (m : WSManager) (sid : String) (ws : ℕ) : Prop :=
  ∃ p ∈ m.active_connections, p.1 = sid ∧ ws ∈ p.2

instance (m : WSManager) (sid : String) (ws : ℕ) :
    Decidable (m.memConns sid ws) :=
  List.decidableBEx _ m.active_connections

/-- Connection `ws` has an entry in the reverse index
(connection → session). -/
def WSManager.memRev (m : WSManager) (ws : ℕ) : Prop :=
  ∃ p ∈ m.connection_sessions, p.1 = ws

instance (m : WSManager) (ws : ℕ) : Decidable (m.memRev ws) :=
  List.decidableBEx _ m.connection_sessions

/-- `WebSocketManager.disconnect(session_id, websocket)` with both
parameters: discard the socket from the session's set, delete the
session key if its set became empty, and delete the reverse-index
entry. -/
def wsDisconnectBoth (m : WSManager) (sid : String) (ws : ℕ) : WSManager :=
  let ac :=
    (m.active_connections.map
      (fun p => if p.1 = sid then (p.1, p.2.filter (fun c => c ≠ ws)) else p)).filter
      (fun p => ¬ (p.1 = sid ∧ p.2 = []))
  let cs := m.connection_sessions.filter (fun p => p.1 ≠ ws)
  ⟨ac, cs⟩

/-- `WebSocketManager.send_personal_message(message, session_id)`: try to
send to every socket of the session, collecting the ones whose send
raised, then disconnect each failed socket.  Returns the list of sockets
the message was delivered to together with the cleaned-up manager. -/
def send_personal_message (m : WSManager) (fails : ℕ → Bool) (sid : String) :
    List ℕ × WSManager :=
  match m.active_connections.find? (fun p => p.1 = sid) with
  | none => ([], m)
  | some p =>
      let delivered := p.2.filter (fun c => !(fails c))
      let disconnected := p.2.filter (fun c => fails c)
      (delivered, disconnected.foldl (fun acc ws => wsDisconnectBoth acc sid ws) m)

/-- All `(session_id, socket)` pairs the `broadcast` loop visits. -/
def WSManager.allPairs (m : WSManager) : List (String × ℕ) :=
  m.active_connections.flatMap (fun p => p.2.map (fun c => (p.1, c)))

/-- `WebSocketManager.broadcast(message)`: try to send to every socket of
every session, collecting `(session_id, socket)` pairs whose send raised,
then disconnect each failed pair. -/
def wsBroadcast (m : WSManager) (fails : ℕ → Bool) : List ℕ × WSManager :=
  let pairs := m.allPairs
  let delivered := (pairs.filter (fun pc => !(fails pc.2))).map (·.2)
  let disconnected := pairs.filter (fun pc => fails pc.2)
  (delivered, disconnected.foldl (fun acc pc => wsDisconnectBoth acc pc.1 pc.2) m)

/-! ## main.py: session store and endpoints -/

/-- The global `active_sessions` dict, as an association list in
insertion order. -/
def Sessions := List (String × ExamSession)

/-- `active_sessions.get(session_id)`. -/
def lookupSession (ss : List (String × ExamSession)) (sid : String) :
    Option ExamSession :=
  (ss.find? (fun p => p.1 = sid)).map (·.2)

/-- Dict assignment `active_sessions[session_id] = v`: replace in place
when the key exists, append otherwise. -/
def setSession (ss : List (String × ExamSession)) (sid : String)
    (v : ExamSession) : List (String × ExamSession) :=
  if ss.any (fun p => p.1 = sid) then
    ss.map (fun p => if p.1 = sid then (p.1, v) else p)
  else ss ++ [(sid, v)]

/-- The parsed inbound JSON payload fields `process_event` consumes
(each `.get` with its default). -/
structure EventData where
  type_tag : Option String
  confidence : Option ℚ
  details : Option (List (String × String))
  severity : Option String
deriving Repr

/-- The session-creation / reuse step at the top of `websocket_endpoint`
(main.py lines 51-63): an unknown id gets a fresh `ACTIVE` session, an
existing session has its status overwritten with `"ACTIVE"`. -/
def websocket_connect (ss : List (String × ExamSession)) (sid : String)
    (now : ℚ) : List (String × ExamSession) :=
  match lookupSession ss sid with
  | none =>
      setSession ss sid
        { id := sid
          student_name := "Student_" ++ sid.take 8
          start_time := now
          risk_score := 0
          status := "ACTIVE"
          events := [] }
  | some s => setSession ss sid { s with status := "ACTIVE" }

/-- The `SuspiciousEvent(...)` construction inside `process_event`
(main.py lines 189-197): server-assigned id and timestamp, payload
fields with their `.get` defaults (`confidence` 0.5, `details` empty,
`severity` "LOW").  Only called once the `EventType` value lookup
succeeded. -/
def mk_event (session_id : String) (ed : EventData) (now : ℚ)
    (fresh_id : String) (et : EventType) : SuspiciousEvent :=
  { id := fresh_id
    session_id := session_id
    timestamp := now
    event_type := et
    confidence := ed.confidence.getD (1/2)
    details := ed.details.getD []
    severity := ed.severity.getD "LOW" }

/-- `process_event(session_id, event_data)` (main.py lines 180-255).
Returns the updated session dict, the updated connection manager, and
the list of sockets the `session_update` broadcast was delivered to.

* Unknown session id: logged and returned unchanged.
* `EventType(event_data.get('type', 'UNKNOWN'))` raising `ValueError`
  (no enum member has that value) is caught by the enclosing
  try/except: state unchanged, nothing broadcast.
* Otherwise the event is appended, the score recomputed over the
  session's events, the status reclassified, and the update broadcast
  with `ws_manager.broadcast` (global, all sessions).
* Both `datetime.now()` reads (event timestamp, scoring reference) are
  modelled by the same instant `now`; `fresh_id` is the generated uuid. -/
def process_event (ss : List (String × ExamSession)) (m : WSManager)
    (fails : ℕ → Bool) (session_id : String) (ed : EventData) (now : ℚ)
    (fresh_id : String) :
    List (String × ExamSession) × WSManager × List ℕ :=
  match lookupSession ss session_id with
  | none => (ss, m, [])
  | some session =>
      match eventTypeOfString (ed.type_tag.getD "UNKNOWN") with
      | none => (ss, m, [])
      | some et =>
          let event := mk_event session_id ed now fresh_id et
          let events' := session.events ++ [event]
          let new_score := calculate_risk_score events' now
          let new_status := classify new_score
          let session' := { session with
                              events := events'
                              risk_score := new_score
                              status := new_status }
          let ss' := setSession ss session_id session'
          let (delivered, m') := wsBroadcast m fails
          (ss', m', delivered)

/-- `GET /api/sessions/{session_id}/events` (main.py lines 273-295):
404 on an unknown id, otherwise the last 20 events and the total count.
The first component of the result is the (unchanged) session dict. -/
def get_session_events (ss : List (String × ExamSession)) (sid : String) :
    List (String × ExamSession) × Except ℕ (List SuspiciousEvent × ℕ) :=
  match lookupSession ss sid with
  | none => (ss, .error 404)
  | some s =>
      (ss, .ok (s.events.drop (s.events.length - 20), s.events.length))

/-- `POST /api/sessions/{session_id}/flag` (main.py lines 297-319):
404 on an unknown id, otherwise set the status to `"FLAGGED"` and
broadcast a `session_flagged` message globally.  Returns the session
dict, the manager, and either the error code or the delivered sockets. -/
def flag_session (ss : List (String × ExamSession)) (m : WSManager)
    (fails : ℕ → Bool) (sid : String) :
    List (String × ExamSession) × WSManager × Except ℕ (List ℕ) :=
  match lookupSession ss sid with
  | none => (ss, m, .error 404)
  | some s =>
      let ss' := setSession ss sid { s with status := "FLAGGED" }
      let (delivered, m') := wsBroadcast m fails
      (ss', m', .ok delivered)

/-! ## Spec-side definitions used to state the claims -/

/-- The fields of an event the scorer actually consults: timestamp,
type, confidence and severity (`id`, `session_id` and `details` are
never read by `calculate_risk_score`). -/
def scoreProj (e : SuspiciousEvent) : ℚ × EventType × ℚ × String :=
  (e.timestamp, e.event_type, e.confidence, e.severity)

/-- `event_score` as a function of the projected fields alone. -/
def event_score_of_proj (now : ℚ) (p : ℚ × EventType × ℚ × String) : ℚ :=
  event_weights_get p.2.1 * p.2.2.1 * severity_multiplier_get p.2.2.2
    * time_factor now p.1

/-- Two events the scorer cannot distinguish: same timestamp, type and
confidence, and severities with the same multiplier. -/
def ScoreEquiv (a b : SuspiciousEvent) : Prop :=
  a.timestamp = b.timestamp ∧ a.event_type = b.event_type
    ∧ a.confidence = b.confidence
    ∧ severity_multiplier_get a.severity = severity_multiplier_get b.severity

/-- The number of events of type `t` in a list (the value the
`event_counts` dict ends up holding for key `t`). -/
def typeCount (events : List SuspiciousEvent) (t : EventType) : ℕ :=
  (events.map (·.event_type)).count t

/-- The severity strings the multiplier dict actually recognizes. -/
def recognized_severities : List String := ["LOW", "MEDIUM", "HIGH", "CRITICAL"]

/-- Replace an unrecognized severity string by `"MEDIUM"` (the severity
whose multiplier coincides with the dict's 1.0 default). -/
def normalize_severity (e : SuspiciousEvent) : SuspiciousEvent :=
  if e.severity ∈ recognized_severities then e
  else { e with severity := "MEDIUM" }

/-! ## Concrete inputs for counterexamples and witnesses -/

/-- An event carrying a negative confidence (the pydantic model does not
constrain `confidence`, and `process_event` copies the client value). -/
def negEvent : SuspiciousEvent :=
  { id := "e1", session_id := "s1", timestamp := 0,
    event_type := .GAZE_LEFT, confidence := -10, details := [],
    severity := "MEDIUM" }

/-- A `phone_detected` event whose elapsed time at evaluation instant
600 is exactly the 10-minute window. -/
def boundaryEvent : SuspiciousEvent :=
  { id := "e2", session_id := "s1", timestamp := 0,
    event_type := .PHONE_DETECTED, confidence := 1, details := [],
    severity := "CRITICAL" }

/-- An in-window `tab_switch` event (used four times over). -/
def tabEvent (i : ℕ) : SuspiciousEvent :=
  { id := toString i, session_id := "s1", timestamp := 0,
    event_type := .TAB_SWITCH, confidence := 1, details := [],
    severity := "MEDIUM" }

/-- Two events agreeing on every scorer-visible field but differing in
id, session id and details. -/
def projEventA : SuspiciousEvent :=
  { id := "a", session_id := "s1", timestamp := 0,
    event_type := .COPY_PASTE, confidence := 1, details := [("k", "v")],
    severity := "HIGH" }

/-- See `projEventA`. -/
def projEventB : SuspiciousEvent :=
  { id := "b", session_id := "s2", timestamp := 0,
    event_type := .COPY_PASTE, confidence := 1, details := [],
    severity := "HIGH" }

/-- A session that was manually flagged (no events yet). -/
def flaggedSession : ExamSession :=
  { id := "s1", student_name := "Student_s1", start_time := 0,
    risk_score := 0, status := "FLAGGED", events := [] }

/-- A second, independent session. -/
def otherSession : ExamSession :=
  { id := "s2", student_name := "Student_s2", start_time := 0,
    risk_score := 0, status := "LOW_RISK", events := [] }

/-- A one-session store holding the flagged session. -/
def demoSessions : List (String × ExamSession) := [("s1", flaggedSession)]

/-- A two-session store. -/
def demoSessions2 : List (String × ExamSession) :=
  [("s1", flaggedSession), ("s2", otherSession)]

/-- A well-formed `gaze_left` observation payload. -/
def gazeED : EventData :=
  { type_tag := some "gaze_left", confidence := some 1, details := none,
    severity := some "LOW" }

/-- A registry with two sessions, one connection each, both indexes
consistent. -/
def demoManager : WSManager :=
  { active_connections := [("s1", [1]), ("s2", [2])],
    connection_sessions := [(1, "s1"), (2, "s2")] }

/-- A registry with two sessions and two connections each. -/
def demoManager2 : WSManager :=
  { active_connections := [("s1", [1, 2]), ("s2", [3, 4])],
    connection_sessions := [(1, "s1"), (2, "s1"), (3, "s2"), (4, "s2")] }

/-! ## Helper lemmas: the scoring pipeline -/

lemma sm_LOW : severity_multiplier_get "LOW" = 1/2 := rfl

lemma sm_MEDIUM : severity_multiplier_get "MEDIUM" = 1 := rfl

lemma sm_HIGH : severity_multiplier_get "HIGH" = 3/2 := rfl

lemma sm_CRITICAL : severity_multiplier_get "CRITICAL" = 2 := rfl

lemma severity_multiplier_get_default {s : String}
    (h : s ∉ recognized_severities) : severity_multiplier_get s = 1 := by
  simp only [recognized_severities, List.mem_cons, List.mem_singleton,
    not_or, List.not_mem_nil] at h
  simp [severity_multiplier_get, h.1, h.2.1, h.2.2.1, h.2.2.2.1]

lemma severity_multiplier_get_nonneg (s : String) :
    0 ≤ severity_multiplier_get s := by
  unfold severity_multiplier_get
  split <;> try norm_num
  split <;> try norm_num
  split <;> try norm_num
  split <;> norm_num

lemma event_weights_get_nonneg (t : EventType) : 0 ≤ event_weights_get t := by
  cases t <;> simp [event_weights_get, event_weights]

lemma time_factor_ge (now ts : ℚ) : 3/10 ≤ time_factor now ts :=
  le_max_left _ _

lemma time_factor_nonneg (now ts : ℚ) : 0 ≤ time_factor now ts :=
  le_trans (by norm_num) (time_factor_ge now ts)

lemma event_score_nonneg (now : ℚ) {e : SuspiciousEvent}
    (h : 0 ≤ e.confidence) : 0 ≤ event_score now e := by
  unfold event_score
  exact mul_nonneg
    (mul_nonneg
      (mul_nonneg (event_weights_get_nonneg _) h)
      (severity_multiplier_get_nonneg _))
    (time_factor_nonneg _ _)

lemma foldl_penalty_nonneg (g : EventType → ℚ) (P : EventType → Prop)
    [DecidablePred P] (hg : ∀ t, P t → 0 ≤ g t) :
    ∀ (l : List EventType) (a : ℚ), 0 ≤ a →
      0 ≤ l.foldl (fun acc t => if P t then acc + g t else acc) a := by
  intro l
  induction l with
  | nil => intro a ha; simpa using ha
  | cons t ts ih =>
      intro a ha
      simp only [List.foldl_cons]
      by_cases hp : P t
      · simp only [if_pos hp]
        exact ih _ (add_nonneg ha (hg t hp))
      · simp only [if_neg hp]
        exact ih _ ha

lemma freq_of_types_nonneg (ts : List EventType) : 0 ≤ freq_of_types ts := by
  unfold freq_of_types
  refine foldl_penalty_nonneg _ _ ?_ _ _ le_rfl
  intro t ht
  have h3 : (3 : ℚ) ≤ (ts.count t : ℚ) := by exact_mod_cast Nat.le_of_lt ht
  exact mul_nonneg
    (mul_nonneg (event_weights_get_nonneg t) (by linarith)) (by norm_num)

lemma calculate_frequency_penalties_nonneg (events : List SuspiciousEvent) :
    0 ≤ calculate_frequency_penalties events :=
  freq_of_types_nonneg _

lemma truncInt_nonneg {q : ℚ} (h : 0 ≤ q) : 0 ≤ truncInt q := by
  unfold truncInt
  exact Int.tdiv_nonneg (Rat.num_nonneg.mpr h) (by exact_mod_cast Nat.zero_le q.den)

/-! ## C3: clamp invariant -/

/-- C3, counterexample: a single event with a (client-supplied, never
validated) negative confidence drives the score to −20: the code only
caps at 100 (`min(int(total_score), 100)`) and never clamps below at 0,
so the claimed invariant `0 ≤ score` fails. -/
theorem risk_score_negative_counterexample :
    calculate_risk_score [negEvent] 0 = -20
    ∧ ¬ (0 ≤ calculate_risk_score [negEvent] 0) := by
  constructor
  · norm_num [calculate_risk_score, recent_events, event_score,
      calculate_frequency_penalties, freq_of_types, dictKeys, insertKey,
      event_weights_get, event_weights, sm_MEDIUM, time_factor,
      time_decay_minutes, truncInt, negEvent]
  · norm_num [calculate_risk_score, recent_events, event_score,
      calculate_frequency_penalties, freq_of_types, dictKeys, insertKey,
      event_weights_get, event_weights, sm_MEDIUM, time_factor,
      time_decay_minutes, truncInt, negEvent]

/-- C3 (amended): for every event list whose confidences are all
nonnegative (the spec's `confidence ∈ [0,1]` contract) and every
evaluation time, `calculate_risk_score` returns an integer in
`[0, 100]`; the upper cap 100 needs no hypothesis, the lower bound
fails for negative confidences (see the counterexample). -/
theorem risk_score_clamped (events : List SuspiciousEvent) (now : ℚ)
    (h : ∀ e ∈ events, 0 ≤ e.confidence) :
    0 ≤ calculate_risk_score events now
      ∧ calculate_risk_score events now ≤ 100 := by
  unfold calculate_risk_score
  cases he : events.isEmpty
  · simp only [he, Bool.false_eq_true, if_false]
    constructor
    · refine le_min ?_ (by norm_num)
      refine truncInt_nonneg (add_nonneg ?_ (calculate_frequency_penalties_nonneg _))
      refine List.sum_nonneg ?_
      intro x hx
      rcases List.mem_map.mp hx with ⟨e, he', rfl⟩
      exact event_score_nonneg now (h e (List.mem_filter.mp he').1)
    · exact min_le_right _ _
  · simp [he]

/-- C3 witness: the amended bound evaluated on a concrete list. -/
theorem risk_score_clamped_witness :
    (∀ e ∈ [boundaryEvent], 0 ≤ e.confidence)
    ∧ (0 ≤ calculate_risk_score [boundaryEvent] 0
       ∧ calculate_risk_score [boundaryEvent] 0 ≤ 100) :=
  ⟨by intro e he; simp only [List.mem_singleton] at he; norm_num [he, boundaryEvent],
   risk_score_clamped [boundaryEvent] 0
     (by intro e he; simp only [List.mem_singleton] at he; norm_num [he, boundaryEvent])⟩

/-! ## C6: decay-window boundary -/

/-- C6, counterexample: an event whose elapsed time is exactly the
10-minute window `W` is NOT excluded: the filter keeps events with
`now - timestamp <= timedelta(minutes=10)` (non-strict), and such an
event still contributes with time factor 0.3 — here a `phone_detected`
event at exactly `elapsed = 600 s` yields score 6, not 0. -/
theorem boundary_event_included_counterexample :
    600 - boundaryEvent.timestamp = time_decay_minutes * 60
    ∧ recent_events 600 [boundaryEvent] = [boundaryEvent]
    ∧ calculate_risk_score [boundaryEvent] 600 = 6
    ∧ calculate_risk_score [] 600 = 0 := by
  refine ⟨by norm_num [boundaryEvent, time_decay_minutes], ?_, ?_, rfl⟩
  · norm_num [recent_events, boundaryEvent, time_decay_minutes]
  · norm_num [calculate_risk_score, recent_events, event_score,
      calculate_frequency_penalties, freq_of_types, dictKeys, insertKey,
      event_weights_get, event_weights, sm_CRITICAL, time_factor,
      time_decay_minutes, truncInt, boundaryEvent]

/-- C6 (amended): an event at exactly `elapsed = W` (10 minutes) is
still included in the window (the comparison is non-strict) and
contributes with time factor exactly 0.3; only events strictly older
than `W` are excluded; and the time factor never falls below the 0.3
floor. -/
theorem decay_window_boundary (events : List SuspiciousEvent)
    (e : SuspiciousEvent) (now : ℚ) :
    (now - e.timestamp = time_decay_minutes * 60 →
       (e ∈ recent_events now events ↔ e ∈ events)
       ∧ time_factor now e.timestamp = 3/10)
    ∧ (time_decay_minutes * 60 < now - e.timestamp →
       e ∉ recent_events now events)
    ∧ 3/10 ≤ time_factor now e.timestamp := by
  refine ⟨fun hb => ⟨?_, ?_⟩, fun hlt => ?_, time_factor_ge now e.timestamp⟩
  · unfold recent_events
    rw [List.mem_filter]
    simp [hb]
  · unfold time_factor
    rw [hb]
    norm_num [time_decay_minutes]
  · unfold recent_events
    rw [List.mem_filter]
    intro hmem
    have := hmem.2
    simp only [decide_eq_true_eq] at this
    exact absurd this (not_le.mpr hlt)

/-- C6 witness: the amended boundary behavior at a concrete event. -/
theorem decay_window_boundary_witness :
    (600 - boundaryEvent.timestamp = time_decay_minutes * 60)
    ∧ ((boundaryEvent ∈ recent_events 600 [boundaryEvent]
          ↔ boundaryEvent ∈ [boundaryEvent])
       ∧ time_factor 600 boundaryEvent.timestamp = 3/10) :=
  ⟨by norm_num [boundaryEvent, time_decay_minutes],
   (decay_window_boundary [boundaryEvent] boundaryEvent 600).1
     (by norm_num [boundaryEvent, time_decay_minutes])⟩

/-! ## C7: frequency penalty -/

lemma mem_insertKey (ks : List EventType) (t x : EventType) :
    x ∈ insertKey ks t ↔ x ∈ ks ∨ x = t := by
  unfold insertKey
  split
  · rename_i h
    constructor
    · exact Or.inl
    · rintro (hx | rfl)
      · exact hx
      · exact h
  · simp [List.mem_append]

lemma nodup_insertKey (ks : List EventType) (t : EventType)
    (h : ks.Nodup) : (insertKey ks t).Nodup := by
  unfold insertKey
  split
  · exact h
  · rename_i ht
    simp [List.nodup_append, h, ht]

lemma mem_foldl_insertKey :
    ∀ (ts acc : List EventType) (x : EventType),
      x ∈ ts.foldl insertKey acc ↔ x ∈ acc ∨ x ∈ ts := by
  intro ts
  induction ts with
  | nil => simp
  | cons t ts ih =>
      intro acc x
      simp only [List.foldl_cons, ih, mem_insertKey, List.mem_cons]
      tauto

lemma nodup_foldl_insertKey :
    ∀ (ts acc : List EventType), acc.Nodup →
      (ts.foldl insertKey acc).Nodup := by
  intro ts
  induction ts with
  | nil => intro acc h; simpa using h
  | cons t ts ih =>
      intro acc h
      simpa using ih (insertKey acc t) (nodup_insertKey acc t h)

lemma mem_dictKeys (ts : List EventType) (x : EventType) :
    x ∈ dictKeys ts ↔ x ∈ ts := by
  simp [dictKeys, mem_foldl_insertKey]

lemma nodup_dictKeys (ts : List EventType) : (dictKeys ts).Nodup :=
  nodup_foldl_insertKey ts [] List.nodup_nil

lemma foldl_if_eq_sum (g : EventType → ℚ) (P : EventType → Prop)
    [DecidablePred P] :
    ∀ (l : List EventType) (a : ℚ),
      l.foldl (fun acc t => if P t then acc + g t else acc) a
        = a + (l.map (fun t => if P t then g t else 0)).sum := by
  intro l
  induction l with
  | nil => simp
  | cons t ts ih =>
      intro a
      simp only [List.foldl_cons, List.map_cons, List.sum_cons, ih]
      by_cases hp : P t
      · simp only [if_pos hp]; ring
      · simp only [if_neg hp]; ring

lemma freq_of_types_eq_sum (ts : List EventType) :
    freq_of_types ts
      = ∑ t : EventType,
          (if 3 < ts.count t
           then event_weights_get t * ((ts.count t : ℚ) - 3) * (1/2)
           else 0) := by
  have h1 : freq_of_types ts
      = 0 + ((dictKeys ts).map
          (fun t => if 3 < ts.count t
            then event_weights_get t * ((ts.count t : ℚ) - 3) * (1/2)
            else 0)).sum :=
    foldl_if_eq_sum
      (fun t => event_weights_get t * ((ts.count t : ℚ) - 3) * (1/2))
      (fun t => 3 < ts.count t) (dictKeys ts) 0
  rw [h1, zero_add, ← List.sum_toFinset _ (nodup_dictKeys ts)]
  refine Finset.sum_subset (Finset.subset_univ _) ?_
  intro t _ ht
  have hts : t ∉ ts := fun hmem =>
    ht (List.mem_toFinset.mpr ((mem_dictKeys ts t).mpr hmem))
  simp [List.count_eq_zero.mpr hts]

/-- C7: the frequency penalty equals the sum, over event types occurring
more than 3 times in the windowed list, of
`baseWeight(type) × (count − 3) × 0.5` — linear in the count; and four
in-window `tab_switch` events (base weight 6) yield exactly penalty 3. -/
theorem frequency_penalty_linear :
    (∀ events : List SuspiciousEvent,
       calculate_frequency_penalties events
         = ∑ t : EventType,
             (if 3 < typeCount events t
              then event_weights_get t * ((typeCount events t : ℚ) - 3) * (1/2)
              else 0))
    ∧ event_weights_get .TAB_SWITCH = 6
    ∧ calculate_frequency_penalties
        [tabEvent 1, tabEvent 2, tabEvent 3, tabEvent 4] = 3 := by
  refine ⟨?_, rfl, ?_⟩
  · intro events
    exact freq_of_types_eq_sum (events.map (·.event_type))
  · norm_num [calculate_frequency_penalties, freq_of_types, dictKeys,
      insertKey, event_weights_get, event_weights, tabEvent]

/-! ## C4 and C10: what the scorer depends on -/

lemma event_score_congr (now : ℚ) {a b : SuspiciousEvent}
    (h : ScoreEquiv a b) : event_score now a = event_score now b := by
  obtain ⟨ht, he, hc, hs⟩ := h
  unfold event_score
  rw [ht, he, hc, hs]

lemma recent_events_forall2 (now : ℚ) {l1 l2 : List SuspiciousEvent}
    (h : List.Forall₂ ScoreEquiv l1 l2) :
    List.Forall₂ ScoreEquiv (recent_events now l1) (recent_events now l2) := by
  induction h with
  | nil => exact .nil
  | cons hab hrest ih =>
      rename_i a b t1 t2
      unfold recent_events at *
      simp only [List.filter_cons]
      rw [hab.1]
      by_cases hcond : now - b.timestamp ≤ time_decay_minutes * 60
      · simp only [decide_eq_true (by exact hcond)]
        exact .cons hab ih
      · simp only [decide_eq_false (by exact hcond)]
        exact ih

lemma sum_event_score_forall2 (now : ℚ) {l1 l2 : List SuspiciousEvent}
    (h : List.Forall₂ ScoreEquiv l1 l2) :
    (l1.map (event_score now)).sum = (l2.map (event_score now)).sum := by
  induction h with
  | nil => rfl
  | cons hab _ ih =>
      simp only [List.map_cons, List.sum_cons, ih, event_score_congr now hab]

lemma types_eq_forall2 {l1 l2 : List SuspiciousEvent}
    (h : List.Forall₂ ScoreEquiv l1 l2) :
    l1.map (·.event_type) = l2.map (·.event_type) := by
  induction h with
  | nil => rfl
  | cons hab _ ih => simp [ih, hab.2.1]

lemma score_congr (now : ℚ) {l1 l2 : List SuspiciousEvent}
    (h : List.Forall₂ ScoreEquiv l1 l2) :
    calculate_risk_score l1 now = calculate_risk_score l2 now := by
  have hlen : l1.length = l2.length := h.length_eq
  have hemp : l1.isEmpty = l2.isEmpty := by
    cases l1 <;> cases l2 <;> simp_all
  unfold calculate_risk_score
  rw [hemp]
  cases he : l2.isEmpty
  · simp only [Bool.false_eq_true, if_false]
    have hr := recent_events_forall2 now h
    rw [sum_event_score_forall2 now hr]
    unfold calculate_frequency_penalties
    rw [types_eq_forall2 hr]
  · simp

lemma forall2_of_map_scoreProj_eq :
    ∀ {l1 l2 : List SuspiciousEvent},
      l1.map scoreProj = l2.map scoreProj →
      List.Forall₂ ScoreEquiv l1 l2 := by
  intro l1
  induction l1 with
  | nil =>
      intro l2 h
      cases l2 with
      | nil => exact .nil
      | cons b t2 => simp at h
  | cons a t1 ih =>
      intro l2 h
      cases l2 with
      | nil => simp at h
      | cons b t2 =>
          simp only [List.map_cons, List.cons.injEq] at h
          have hab : ScoreEquiv a b := by
            have hp := h.1
            unfold scoreProj at hp
            simp only [Prod.mk.injEq] at hp
            exact ⟨hp.1, hp.2.1, hp.2.2.1, by rw [hp.2.2.2]⟩
          exact .cons hab (ih h.2)

/-- C4: the risk scorer is deterministic and depends on nothing but the
fields it reads — two event lists that agree on `(timestamp, event_type,
confidence, severity)` of every event (ids, session ids, details and any
other ambient state may differ) produce the identical score at the same
evaluation time `now`. -/
theorem calculate_risk_score_deterministic
    (ev1 ev2 : List SuspiciousEvent) (now : ℚ)
    (h : ev1.map scoreProj = ev2.map scoreProj) :
    calculate_risk_score ev1 now = calculate_risk_score ev2 now :=
  score_congr now (forall2_of_map_scoreProj_eq h)

/-- C4 witness: two concrete one-event lists differing only in id and
details fields score identically. -/
theorem calculate_risk_score_deterministic_witness :
    ([projEventA].map scoreProj = [projEventB].map scoreProj)
    ∧ calculate_risk_score [projEventA] 0 = calculate_risk_score [projEventB] 0 :=
  ⟨rfl, calculate_risk_score_deterministic [projEventA] [projEventB] 0 rfl⟩

lemma scoreEquiv_normalize (e : SuspiciousEvent) :
    ScoreEquiv (normalize_severity e) e := by
  unfold normalize_severity
  split
  · exact ⟨rfl, rfl, rfl, rfl⟩
  · rename_i h
    exact ⟨rfl, rfl, rfl, by rw [severity_multiplier_get_default h]; rfl⟩

lemma forall2_normalize (events : List SuspiciousEvent) :
    List.Forall₂ ScoreEquiv (events.map normalize_severity) events := by
  induction events with
  | nil => exact .nil
  | cons e t ih => exact .cons (scoreEquiv_normalize e) ih

/-- C10: an unrecognized severity string totalizes to the dict default
multiplier 1.0, identical to `"MEDIUM"`; consequently the scorer is
total over arbitrary severity strings and normalizing every
unrecognized severity to `"MEDIUM"` leaves every score unchanged. -/
theorem unrecognized_severity_defaults_to_medium
    (s : String) (events : List SuspiciousEvent) (now : ℚ)
    (h : s ∉ recognized_severities) :
    severity_multiplier_get s = 1
    ∧ severity_multiplier_get s = severity_multiplier_get "MEDIUM"
    ∧ calculate_risk_score (events.map normalize_severity) now
        = calculate_risk_score events now :=
  ⟨severity_multiplier_get_default h,
   by rw [severity_multiplier_get_default h, sm_MEDIUM],
   score_congr now (forall2_normalize events)⟩

/-- C10 witness: evaluated at the concrete severity string `"weird"`. -/
theorem unrecognized_severity_defaults_to_medium_witness :
    ("weird" ∉ recognized_severities)
    ∧ severity_multiplier_get "weird" = 1
    ∧ severity_multiplier_get "weird" = severity_multiplier_get "MEDIUM"
    ∧ calculate_risk_score ([negEvent].map normalize_severity) 0
        = calculate_risk_score [negEvent] 0 :=
  ⟨by decide,
   (unrecognized_severity_defaults_to_medium "weird" [negEvent] 0 (by decide)).1,
   (unrecognized_severity_defaults_to_medium "weird" [negEvent] 0 (by decide)).2.1,
   (unrecognized_severity_defaults_to_medium "weird" [negEvent] 0 (by decide)).2.2⟩

/-! ## Session-store lemmas -/

lemma find?_map_set (ss : List (String × ExamSession)) (sid : String)
    (v : ExamSession) (h : ss.any (fun p => p.1 = sid) = true) :
    (ss.map (fun p => if p.1 = sid then (p.1, v) else p)).find?
        (fun p => p.1 = sid) = some (sid, v) := by
  induction ss with
  | nil => simp at h
  | cons p t ih =>
      by_cases hp : p.1 = sid
      · subst hp
        simp [List.find?_cons_of_pos]
      · simp only [List.any_cons, Bool.or_eq_true, decide_eq_true_eq] at h
        rcases h with h | h
        · exact absurd h hp
        · simp only [List.map_cons, if_neg hp]
          rw [List.find?_cons_of_neg _ (by simpa using hp)]
          exact ih h

lemma lookupSession_setSession (ss : List (String × ExamSession))
    (sid : String) (v : ExamSession) :
    lookupSession (setSession ss sid v) sid = some v := by
  unfold lookupSession setSession
  by_cases h : ss.any (fun p => p.1 = sid) = true
  · rw [if_pos h, find?_map_set ss sid v h]
    rfl
  · rw [if_neg h, List.find?_append]
    have hnone : ss.find? (fun p => decide (p.1 = sid)) = none := by
      rw [List.find?_eq_none]
      intro x hx hpx
      exact h (List.any_eq_true.mpr ⟨x, hx, hpx⟩)
    rw [hnone]
    simp

/-! ## C9: administrative calls on an unknown session are 404 -/

/-- C9: for an unknown session id, `GET .../events` and
`POST .../flag` both return HTTP 404 leaving the session store (and the
connection registry) untouched and creating no session, while the
live-connection path (`websocket_endpoint`) is the one that lazily
creates a session for the same unknown id. -/
theorem admin_unknown_session_404 (ss : List (String × ExamSession))
    (m : WSManager) (fails : ℕ → Bool) (sid : String) (now : ℚ)
    (h : lookupSession ss sid = none) :
    get_session_events ss sid = (ss, .error 404)
    ∧ flag_session ss m fails sid = (ss, m, .error 404)
    ∧ lookupSession (websocket_connect ss sid now) sid
        = some { id := sid, student_name := "Student_" ++ sid.take 8,
                 start_time := now, end_time := none, risk_score := 0,
                 status := "ACTIVE", events := [] } := by
  refine ⟨?_, ?_, ?_⟩
  · unfold get_session_events
    rw [h]
  · unfold flag_session
    rw [h]
  · unfold websocket_connect
    rw [h]
    exact lookupSession_setSession ss sid _

/-- C9 witness: the 404 paths evaluated at a store not containing
`"nope"`. -/
theorem admin_unknown_session_404_witness :
    lookupSession demoSessions "nope" = none
    ∧ get_session_events demoSessions "nope" = (demoSessions, .error 404)
    ∧ flag_session demoSessions demoManager (fun _ => false) "nope"
        = (demoSessions, demoManager, .error 404) :=
  ⟨rfl,
   (admin_unknown_session_404 demoSessions demoManager (fun _ => false)
     "nope" 0 rfl).1,
   (admin_unknown_session_404 demoSessions demoManager (fun _ => false)
     "nope" 0 rfl).2.1⟩

/-! ## C5: unrecognized type tags -/

/-- C5: ingestion of an observation whose type tag is not an `EventType`
VALUE does not score it with default weight 1 — the enum value lookup
`EventType(event_data.get('type', 'UNKNOWN'))` fails (returns no member,
Python raises `ValueError`), the enclosing try/except swallows the error
and the event is dropped: no append, no rescoring, no broadcast.  This
holds even for the code's own fallback tag `'UNKNOWN'` (the member's
value is `'unknown'`), so every tag routed to `process_event` by
`websocket_endpoint` is dropped, while the scorer's weight-1 default is
only reachable for enum members absent from the weights dict. -/
theorem unknown_tag_drops_event :
    eventTypeOfString "UNKNOWN" = none
    ∧ eventTypeOfString "suspicious_event" = none
    ∧ process_event demoSessions demoManager (fun _ => false) "s1"
        { type_tag := some "suspicious_event", confidence := none,
          details := none, severity := none } 0 "e9"
        = (demoSessions, demoManager, [])
    ∧ process_event demoSessions demoManager (fun _ => false) "s1"
        { type_tag := none, confidence := none, details := none,
          severity := none } 0 "e9"
        = (demoSessions, demoManager, [])
    ∧ event_weights_get .UNKNOWN = 1
    ∧ event_weights_get .HEAD_TILT = 1 :=
  ⟨rfl, rfl, rfl, rfl, rfl, rfl⟩

/-! ## C2: FLAGGED is not sticky -/

lemma classify_ne_flagged (z : ℤ) : classify z ≠ "FLAGGED" := by
  unfold classify
  split
  · decide
  · split
    · decide
    · decide

/-- C2, counterexample: a session in status `FLAGGED` loses that status
both when a further behavioral event is processed (reclassified to
`LOW_RISK` from the fresh score, with no flagged check) and when its
WebSocket reconnects (`websocket_endpoint` overwrites the status with
`ACTIVE`), with no unflag operation involved. -/
theorem flagged_overwritten_counterexample :
    (lookupSession demoSessions "s1").map (·.status) = some "FLAGGED"
    ∧ (lookupSession (process_event demoSessions demoManager
          (fun _ => false) "s1" gazeED 0 "e1").1 "s1").map (·.status)
        = some "LOW_RISK"
    ∧ (lookupSession (websocket_connect demoSessions "s1" 0) "s1").map
          (·.status) = some "ACTIVE" := by
  refine ⟨rfl, ?_, rfl⟩
  norm_num [process_event, demoSessions, demoManager, gazeED,
    flaggedSession, lookupSession, setSession, eventTypeOfString,
    allEventTypes, EventType.value, mk_event, calculate_risk_score,
    recent_events, event_score, calculate_frequency_penalties,
    freq_of_types, dictKeys, insertKey, event_weights_get, event_weights,
    sm_LOW, time_factor, time_decay_minutes, truncInt, classify,
    wsBroadcast, WSManager.allPairs]

/-- C2 (amended): processing any behavioral event on an existing
session — flagged or not — unconditionally overwrites its status with
the score-driven classification (`HIGH_RISK`/`MODERATE_RISK`/
`LOW_RISK`, never `FLAGGED`), and a reconnect overwrites it with
`ACTIVE`; so `FLAGGED` survives only until the next processed event or
reconnect, not until an explicit unflag/end. -/
theorem process_event_ignores_flagged (ss : List (String × ExamSession))
    (m : WSManager) (fails : ℕ → Bool) (sid : String) (ed : EventData)
    (now : ℚ) (fid : String) (s : ExamSession) (et : EventType)
    (hs : lookupSession ss sid = some s)
    (het : eventTypeOfString (ed.type_tag.getD "UNKNOWN") = some et) :
    lookupSession (process_event ss m fails sid ed now fid).1 sid
      = some { s with
                 events := s.events ++ [mk_event sid ed now fid et]
                 risk_score :=
                   calculate_risk_score
                     (s.events ++ [mk_event sid ed now fid et]) now
                 status :=
                   classify (calculate_risk_score
                     (s.events ++ [mk_event sid ed now fid et]) now) }
    ∧ (∀ z : ℤ, classify z ≠ "FLAGGED")
    ∧ lookupSession (websocket_connect ss sid now) sid
        = some { s with status := "ACTIVE" } := by
  refine ⟨?_, classify_ne_flagged, ?_⟩
  · have hfst : (process_event ss m fails sid ed now fid).1
        = setSession ss sid
            { s with
                events := s.events ++ [mk_event sid ed now fid et]
                risk_score :=
                  calculate_risk_score
                    (s.events ++ [mk_event sid ed now fid et]) now
                status :=
                  classify (calculate_risk_score
                    (s.events ++ [mk_event sid ed now fid et]) now) } := by
      unfold process_event
      rw [hs, het]
    rw [hfst]
    exact lookupSession_setSession ss sid _
  · unfold websocket_connect
    rw [hs]
    exact lookupSession_setSession ss sid _

/-- C2 witness: the amended statement applied to the concrete flagged
session, with both hypotheses discharged by evaluation. -/
theorem process_event_ignores_flagged_witness :
    lookupSession demoSessions "s1" = some flaggedSession
    ∧ eventTypeOfString (gazeED.type_tag.getD "UNKNOWN")
        = some EventType.GAZE_LEFT
    ∧ (∀ z : ℤ, classify z ≠ "FLAGGED")
    ∧ lookupSession (websocket_connect demoSessions "s1" 0) "s1"
        = some { flaggedSession with status := "ACTIVE" } :=
  ⟨rfl, rfl,
   (process_event_ignores_flagged demoSessions demoManager (fun _ => false)
     "s1" gazeED 0 "e1" flaggedSession .GAZE_LEFT rfl rfl).2.1,
   (process_event_ignores_flagged demoSessions demoManager (fun _ => false)
     "s1" gazeED 0 "e1" flaggedSession .GAZE_LEFT rfl rfl).2.2⟩

/-! ## Connection-registry lemmas -/

lemma memConns_disc_self (m : WSManager) (sid : String) (ws : ℕ) :
    ¬ (wsDisconnectBoth m sid ws).memConns sid ws := by
  unfold wsDisconnectBoth WSManager.memConns
  rintro ⟨p, hp, hsid, hws⟩
  rw [List.mem_filter] at hp
  rcases List.mem_map.mp hp.1 with ⟨q, _, rfl⟩
  by_cases hq1 : q.1 = sid
  · simp only [if_pos hq1] at hws
    rcases List.mem_filter.mp hws with ⟨_, hne⟩
    simp at hne
  · simp only [if_neg hq1] at hsid
    exact hq1 hsid

lemma memConns_disc_mono {m : WSManager} {sid : String} {ws : ℕ}
    (s' : String) (w' : ℕ) (h : ¬ m.memConns sid ws) :
    ¬ (wsDisconnectBoth m s' w').memConns sid ws := by
  unfold wsDisconnectBoth WSManager.memConns at *
  rintro ⟨p, hp, hsid, hws⟩
  rw [List.mem_filter] at hp
  rcases List.mem_map.mp hp.1 with ⟨q, hq, rfl⟩
  by_cases hq1 : q.1 = s'
  · simp only [if_pos hq1] at hsid hws
    exact h ⟨q, hq, hsid, (List.mem_filter.mp hws).1⟩
  · simp only [if_neg hq1] at hsid hws
    exact h ⟨q, hq, hsid, hws⟩

lemma memRev_disc_self (m : WSManager) (sid : String) (ws : ℕ) :
    ¬ (wsDisconnectBoth m sid ws).memRev ws := by
  unfold wsDisconnectBoth WSManager.memRev
  rintro ⟨p, hp, hws⟩
  rcases List.mem_filter.mp hp with ⟨_, hne⟩
  simp only [decide_eq_true_eq] at hne
  exact hne hws

lemma memRev_disc_mono {m : WSManager} {ws : ℕ} (s' : String) (w' : ℕ)
    (h : ¬ m.memRev ws) : ¬ (wsDisconnectBoth m s' w').memRev ws := by
  unfold wsDisconnectBoth WSManager.memRev at *
  rintro ⟨p, hp, hws⟩
  exact h ⟨p, (List.mem_filter.mp hp).1, hws⟩

lemma fold_disconnect_removes :
    ∀ (l : List (String × ℕ)) (m : WSManager) (sid : String) (ws : ℕ),
      ((sid, ws) ∈ l ∨ (¬ m.memConns sid ws ∧ ¬ m.memRev ws)) →
      ¬ (l.foldl (fun acc pc => wsDisconnectBoth acc pc.1 pc.2) m).memConns sid ws
      ∧ ¬ (l.foldl (fun acc pc => wsDisconnectBoth acc pc.1 pc.2) m).memRev ws := by
  intro l
  induction l with
  | nil =>
      rintro m sid ws (h | h)
      · simp at h
      · simpa using h
  | cons hd tl ih =>
      rintro m sid ws (h | h)
      · rcases List.mem_cons.mp h with heq | htl
        · obtain ⟨h1, h2⟩ := Prod.mk.injEq .. ▸ congrArg id heq
          simp only [List.foldl_cons]
          refine ih _ sid ws (Or.inr ⟨?_, ?_⟩)
          · rw [← h1, ← h2]
            exact memConns_disc_self m sid ws
          · rw [← h2]
            exact memRev_disc_self m hd.1 ws
        · exact ih _ sid ws (Or.inl htl)
      · simp only [List.foldl_cons]
        exact ih _ sid ws
          (Or.inr ⟨memConns_disc_mono hd.1 hd.2 h.1, memRev_disc_mono hd.1 hd.2 h.2⟩)

lemma mem_allPairs (m : WSManager) (t : String) (c : ℕ) :
    (t, c) ∈ m.allPairs ↔ m.memConns t c := by
  unfold WSManager.allPairs WSManager.memConns
  constructor
  · intro h
    rcases List.mem_flatMap.mp h with ⟨p, hp, hmem⟩
    rcases List.mem_map.mp hmem with ⟨x, hx, hxe⟩
    obtain ⟨h1, h2⟩ := Prod.mk.injEq .. ▸ hxe
    exact ⟨p, hp, h1, h2 ▸ hx⟩
  · rintro ⟨p, hp, h1, h2⟩
    refine List.mem_flatMap.mpr ⟨p, hp, List.mem_map.mpr ⟨c, h2, by rw [h1]⟩⟩

/-! ## C8: send-failure isolation and cleanup -/

/-- C8: when sends fail on some connections, `send_personal_message`
still delivers to exactly the non-failing connections of the session and
`broadcast` to the non-failing connections of every session (one raising
send never blocks the siblings, which are collected and handled after
the loop), and every failed connection is afterwards removed from both
the session→connections index and the connection→session index. -/
theorem send_failure_isolation_and_cleanup (m : WSManager)
    (fails : ℕ → Bool) (sid : String) (conns : List ℕ)
    (h : m.active_connections.find? (fun p => p.1 = sid)
           = some (sid, conns)) :
    (send_personal_message m fails sid).1
        = conns.filter (fun c => !(fails c))
    ∧ (∀ c ∈ conns, fails c = true →
        ¬ (send_personal_message m fails sid).2.memConns sid c
        ∧ ¬ (send_personal_message m fails sid).2.memRev c)
    ∧ (wsBroadcast m fails).1
        = (m.allPairs.filter (fun pc => !(fails pc.2))).map (·.2)
    ∧ (∀ t c, m.memConns t c → fails c = true →
        ¬ (wsBroadcast m fails).2.memConns t c
        ∧ ¬ (wsBroadcast m fails).2.memRev c) := by
  have hsend : send_personal_message m fails sid
      = (conns.filter (fun c => !(fails c)),
         (conns.filter (fun c => fails c)).foldl
           (fun acc ws => wsDisconnectBoth acc sid ws) m) := by
    unfold send_personal_message
    rw [h]
  refine ⟨by rw [hsend], ?_, rfl, ?_⟩
  · intro c hc hf
    rw [hsend]
    have hfold : (conns.filter (fun c => fails c)).foldl
        (fun acc ws => wsDisconnectBoth acc sid ws) m
        = ((conns.filter (fun c => fails c)).map (fun c => (sid, c))).foldl
            (fun acc pc => wsDisconnectBoth acc pc.1 pc.2) m := by
      rw [List.foldl_map]
    simp only [hfold]
    exact fold_disconnect_removes _ m sid c
      (Or.inl (List.mem_map.mpr ⟨c, List.mem_filter.mpr ⟨hc, hf⟩, rfl⟩))
  · intro t c hmem hf
    exact fold_disconnect_removes _ m t c
      (Or.inl (List.mem_filter.mpr
        ⟨(mem_allPairs m t c).mpr hmem, by simp [hf]⟩))

/-- C8 witness: a concrete registry with two sessions and two
connections each, where the send to connection 1 of session s1 fails:
connection 2 still receives, and 1 is scrubbed from both indexes. -/
theorem send_failure_isolation_and_cleanup_witness :
    (demoManager2.active_connections.find? (fun p => p.1 = "s1")
        = some ("s1", [1, 2]))
    ∧ (send_personal_message demoManager2 (fun c => c == 1) "s1").1 = [2]
    ∧ (1 ∈ [1, 2] ∧ ((1 : ℕ) == 1) = true)
    ∧ (¬ (send_personal_message demoManager2
            (fun c => c == 1) "s1").2.memConns "s1" 1
       ∧ ¬ (send_personal_message demoManager2
            (fun c => c == 1) "s1").2.memRev 1) :=
  ⟨rfl,
   by rw [(send_failure_isolation_and_cleanup demoManager2
       (fun c => c == 1) "s1" [1, 2] rfl).1]; decide,
   ⟨by decide, rfl⟩,
   (send_failure_isolation_and_cleanup demoManager2 (fun c => c == 1)
     "s1" [1, 2] rfl).2.1 1 (by decide) rfl⟩

/-! ## C1: session_update broadcast scope -/

/-- C1, counterexample: with two sessions each holding one connection,
processing an event for session s1 delivers the `session_update` to
connection 2, which is registered under session s2 and not under s1 —
`process_event` fans out with the global `broadcast`, not with the
session-scoped `send_personal_message`. -/
theorem session_update_leaks_across_sessions :
    demoManager.memConns "s2" 2
    ∧ ¬ demoManager.memConns "s1" 2
    ∧ 2 ∈ (process_event demoSessions2 demoManager (fun _ => false) "s1"
            gazeED 0 "e1").2.2 := by
  refine ⟨by decide, by decide, ?_⟩
  have hdel : (process_event demoSessions2 demoManager (fun _ => false)
      "s1" gazeED 0 "e1").2.2 = [1, 2] := by
    norm_num [process_event, demoSessions2, demoManager, gazeED,
      lookupSession, eventTypeOfString, allEventTypes, EventType.value,
      wsBroadcast, WSManager.allPairs]
  rw [hdel]
  decide

/-- C1 (amended): the `session_update` produced by `process_event` is
delivered to every live connection of every session in the registry
(global broadcast, assuming no send fails) — in particular to every
connection registered under a session other than the event's. -/
theorem process_event_broadcast_is_global (ss : List (String × ExamSession))
    (m : WSManager) (sid : String) (ed : EventData) (now : ℚ) (fid : String)
    (s : ExamSession) (et : EventType)
    (hs : lookupSession ss sid = some s)
    (het : eventTypeOfString (ed.type_tag.getD "UNKNOWN") = some et) :
    (process_event ss m (fun _ => false) sid ed now fid).2.2
      = m.allPairs.map (·.2)
    ∧ (∀ t c, m.memConns t c →
        c ∈ (process_event ss m (fun _ => false) sid ed now fid).2.2) := by
  have hdel : (process_event ss m (fun _ => false) sid ed now fid).2.2
      = (wsBroadcast m (fun _ => false)).1 := by
    unfold process_event
    rw [hs, het]
  have hbro : (wsBroadcast m (fun _ => false)).1 = m.allPairs.map (·.2) := by
    unfold wsBroadcast
    simp
  refine ⟨by rw [hdel, hbro], ?_⟩
  intro t c hmem
  rw [hdel, hbro]
  exact List.mem_map.mpr ⟨(t, c), (mem_allPairs m t c).mpr hmem, rfl⟩

/-- C1 witness: the amended global-delivery statement at the concrete
two-session registry. -/
theorem process_event_broadcast_is_global_witness :
    lookupSession demoSessions2 "s1" = some flaggedSession
    ∧ (process_event demoSessions2 demoManager (fun _ => false) "s1"
        gazeED 0 "e1").2.2 = demoManager.allPairs.map (·.2) :=
  ⟨rfl,
   (process_event_broadcast_is_global demoSessions2 demoManager "s1"
     gazeED 0 "e1" flaggedSession .GAZE_LEFT rfl rfl).1⟩

end Proctoring
